import Mathlib

/-!
Shallow embedding of the channel-upload detection core of `src/transcript.py`
(`parse_iso8601_duration`, `get_latest_video`, `is_short`, `get_video_count`,
`YouTubeKeyRotator`, `_yt_get`, `fetch_transcript`, and the poll loop of
`monitor_channel`), together with theorems settling the specification claims.

External I/O (HTTP calls, telegram messages, logging) is modelled by passing
the decoded responses of the collaborators as explicit arguments; machine
behaviour (Python `int`) is modelled with `Int` where subtraction matters and
`Nat` for parsed durations, which are non-negative by construction.
-/

namespace BeastVideo

/- ──────────────────────────────────────────────────────────────────────
   ISO-8601 duration parsing (`parse_iso8601_duration`, transcript.py:433-439)

   The source uses `re.match(r"PT(?:(\d+)H)?(?:(\d+)M)?(?:(\d+)S)?", d)`.
   Since `H`, `M`, `S` are not digits, a group `(?:(\d+)X)?` matches exactly
   when the maximal digit run at the current position is non-empty and the
   character right after it is `X` (backtracking to a shorter digit run can
   never succeed because the next character would then be a digit).  The
   deterministic parser below implements exactly that semantics.
   ────────────────────────────────────────────────────────────────────── -/

/-- Numeric value of a digit string, as Python `int(x)` on a `\d+` group. -/
def digitsToNat (ds : List Char) : Nat :=
  ds.foldl (fun a c => a * 10 + (c.toNat - 48)) 0

/-- One optional regex component `(?:(\d+)X)?`: consume a maximal non-empty
digit run followed by the component letter, else consume nothing.  The value
of an absent group is `0`, as in the source's `int(x or 0)`. -/
def matchComp (letter : Char) (cs : List Char) : Nat × List Char :=
  let ds := cs.takeWhile Char.isDigit
  match cs.dropWhile Char.isDigit with
  | r :: rs => if ds ≠ [] ∧ r = letter then (digitsToNat ds, rs) else (0, cs)
  | [] => (0, cs)

/-- Embedding of `parse_iso8601_duration` (transcript.py:433-439): prefix-match
`PT(\d+H)?(\d+M)?(\d+S)?` and return `h*3600 + m*60 + s`; any string whose
prefix does not match (in particular one not starting with `PT`) yields `0`. -/
def parse_iso8601_duration (duration : String) : Nat :=
  match duration.toList with
  | 'P' :: 'T' :: cs =>
    let hr := matchComp 'H' cs
    let mr := matchComp 'M' hr.2
    let sr := matchComp 'S' mr.2
    hr.1 * 3600 + mr.1 * 60 + sr.1
  | _ => 0

/- ──────────────────────────────────────────────────────────────────────
   Shorts classification and the Latest-Video Resolver
   (`get_latest_video`, transcript.py:329-405; `is_short`, 408-430;
    `get_video_count`, 298-326)
   ────────────────────────────────────────────────────────────────────── -/

/-- The duration check `is_sh = secs <= 60` (transcript.py:393, 427). -/
def classifiesShort (secs : Nat) : Bool :=
  secs ≤ 60

/-- Python `dict.get(k, dflt)` over an insertion list where later insertions
overwrite earlier ones (so the last matching entry wins). -/
def dictGet (d : List (String × Nat)) (k : String) (dflt : Nat) : Nat :=
  match d.reverse.find? (fun p => p.1 = k) with
  | some p => p.2
  | none => dflt

/-- One playlist item of the `playlistItems.list` response:
`snippet.resourceId.videoId` (possibly absent) and `snippet.title`. -/
structure PlaylistItem where
  videoId : Option String
  title : String
deriving Repr, DecidableEq

/-- Candidate extraction loop of `get_latest_video` (transcript.py:359-367):
keep `(videoId, title)` for every item that has a `videoId`. -/
def candidatesOf (items : List PlaylistItem) : List (String × String) :=
  items.filterMap fun it => it.videoId.map fun v => (v, it.title)

/-- Duration table built from the `videos.list` response
(transcript.py:379-388): on a failed response the table is empty and every
candidate later defaults to `999` seconds. -/
def durationsOf (videosResp : Option (List (String × String))) : List (String × Nat) :=
  match videosResp with
  | none => []
  | some xs => xs.map fun p => (p.1, parse_iso8601_duration p.2)

/-- Selection loop of `get_latest_video` (transcript.py:391-400): return the
first candidate whose duration (defaulting to `999`) is not a Short. -/
def firstNonShort (cands : List (String × String)) (durs : List (String × Nat)) :
    Option (String × String) :=
  cands.find? fun c => ¬ classifiesShort (dictGet durs c.1 999)

/-- Query parameters of the `playlistItems.list` request (transcript.py:345). -/
def playlistItemsParams (playlist_id : String) : List (String × String) :=
  [("playlistId", playlist_id), ("part", "snippet"), ("maxResults", "8")]

/-- `UC... → UU...` uploads-playlist convention (transcript.py:278-280). -/
def uploads_playlist_id (channel_id : String) : String :=
  "UU" ++ (channel_id.drop 2)

/-- Embedding of `get_latest_video` (transcript.py:329-405).  The two HTTP
responses are passed as decoded arguments: `playlistResp` is the item list of
`playlistItems.list` (`none` when the call failed) and `videosResp` the
`(id, iso-duration)` list of `videos.list` (`none` when that call failed). -/
def get_latest_video (keysAvailable : Bool) (playlistResp : Option (List PlaylistItem))
    (videosResp : Option (List (String × String))) : Option (String × String) :=
  if ¬ keysAvailable then none
  else
    match playlistResp with
    | none => none
    | some items =>
      if items = [] then none
      else
        let cands := candidatesOf items
        if cands = [] then none
        else firstNonShort cands (durationsOf videosResp)

/-- Embedding of `is_short` (transcript.py:408-430): `resp` is the list of
ISO-duration strings of the returned items (`none` when the call failed or an
exception occurred); absent data is reported as not-Short. -/
def is_short (keysAvailable : Bool) (resp : Option (List String)) : Bool :=
  if ¬ keysAvailable then false
  else
    match resp with
    | none => false
    | some items =>
      match items.head? with
      | none => false
      | some dur => classifiesShort (parse_iso8601_duration dur)

/-- Embedding of `get_video_count` (transcript.py:298-326): `resp` carries the
`videoCount` values of the returned channel items (`none` when `_yt_get`
returned no response or an exception occurred). -/
def get_video_count (keysAvailable : Bool) (resp : Option (List Int)) : Option Int :=
  if ¬ keysAvailable then none
  else
    match resp with
    | none => none
    | some items => items.head?

/- ──────────────────────────────────────────────────────────────────────
   YouTube API key rotation (`YouTubeKeyRotator`, transcript.py:41-93) and
   the fetch wrapper (`_yt_get`, transcript.py:232-272)
   ────────────────────────────────────────────────────────────────────── -/

/-- State of `YouTubeKeyRotator`: the key list, the round-robin index and the
set of quota-exhausted key indices (kept duplicate-free, as a Python `set`). -/
structure RotState where
  keys : List String
  index : Nat
  exhausted : List Nat
deriving Repr, DecidableEq

/-- `YouTubeKeyRotator.available` (transcript.py:48-50). -/
def RotState.available (r : RotState) : Bool :=
  (¬ r.keys.isEmpty) && (r.exhausted.dedup.length < r.keys.length)

/-- Inner `while True` loop of `next_key` (transcript.py:62-69); `fuel` bounds
the number of iterations (the source loop stops once the index wraps back to
`start`, so `keys.length + 1` iterations always suffice). -/
def nextKeyAux (keys : List String) (exhausted : List Nat) (start : Nat) :
    Nat → Nat → Option String × Nat
  | _, 0 => (none, start)
  | idx, fuel + 1 =>
    if idx ∉ exhausted then (some (keys.getD idx ""), (idx + 1) % keys.length)
    else
      let idx' := (idx + 1) % keys.length
      if idx' = start then (none, idx')
      else nextKeyAux keys exhausted start idx' fuel

/-- `YouTubeKeyRotator.next_key` (transcript.py:56-69): the next available key
in round-robin order, or `none` when all keys are exhausted. -/
def RotState.next_key (r : RotState) : Option String × RotState :=
  if r.keys = [] then (none, r)
  else
    let res := nextKeyAux r.keys r.exhausted r.index r.index (r.keys.length + 1)
    (res.1, { r with index := res.2 })

/-- `YouTubeKeyRotator.mark_exhausted` (transcript.py:71-81): add the index of
the first occurrence of `key` to the exhausted set; unknown keys are ignored
(the source swallows the `ValueError` of `list.index`). -/
def RotState.mark_exhausted (r : RotState) (key : String) : RotState :=
  match r.keys.findIdx? (fun k => k = key) with
  | none => r
  | some idx =>
    if idx ∈ r.exhausted then r else { r with exhausted := idx :: r.exhausted }

/-- Outcome of one `requests.get` call inside `_yt_get`: either a response
with a status code, or a raised non-HTTP exception. -/
inductive HttpOutcome where
  | resp (status : Nat)
  | exn
deriving Repr, DecidableEq

/-- Body of the `while tried < YT_KEYS.count` loop of `_yt_get`
(transcript.py:246-272), with `fuel = count - tried`.  `tried` is incremented
only on the `HTTPError` branch; in the `403` branch the source evaluates the
log f-string `f"... key #{self._keys.index(key)+1 if key in self._keys else ...}"`
(transcript.py:255) in which `self` is an unbound name — the resulting
`NameError` is caught by the trailing `except Exception` handler
(transcript.py:269-271), so the function returns `None` there and the calls
`YT_KEYS.mark_exhausted(key)`, `tried += 1` and `continue` on lines 256-258
are never executed. -/
def ytGetLoop (http : String → HttpOutcome) : RotState → Nat → Option Nat × RotState
  | rot, 0 => (none, rot)
  | rot, fuel + 1 =>
    let kr := rot.next_key
    match kr.1 with
    | none => (none, kr.2)
    | some key =>
      match http key with
      | .exn => (none, kr.2)
      | .resp status =>
        if status = 403 then
          (none, kr.2)
        else if status = 400 then (none, kr.2)
        else if 400 ≤ status ∧ status < 600 then
          ytGetLoop http kr.2 fuel
        else (some status, kr.2)

/-- Embedding of `_yt_get` (transcript.py:232-272): returns the status of the
obtained response (`some status`) or `none`, together with the rotator state
after the call.  The HTTP layer is the oracle `http`, mapping the API key used
for an attempt to that attempt's outcome. -/
def yt_get (rot : RotState) (http : String → HttpOutcome) : Option Nat × RotState :=
  if ¬ rot.available then (none, rot)
  else ytGetLoop http rot rot.keys.length

/- ──────────────────────────────────────────────────────────────────────
   Transcript fetching (`extract_transcript_text`, transcript.py:169-184;
   `fetch_transcript`, transcript.py:187-200)
   ────────────────────────────────────────────────────────────────────── -/

/-- JSON values as traversed by `extract_transcript_text`. -/
inductive Json where
  | str (s : String)
  | num (n : Int)
  | bool (b : Bool)
  | null
  | arr (elems : List Json)
  | obj (fields : List (String × Json))

mutual

/-- Recursive `collect` of `extract_transcript_text` (transcript.py:171-182):
strings are collected; a dict with a string-valued `"text"` entry contributes
exactly that entry, any other dict is traversed value by value; lists are
traversed element by element; all other values contribute nothing. -/
def collectParts : Json → List String
  | .str s => [s]
  | .num _ => []
  | .bool _ => []
  | .null => []
  | .arr elems => collectPartsList elems
  | .obj fields =>
    match (fields.find? (fun p => p.1 = "text")).map (fun p => p.2) with
    | some (Json.str s) => [s]
    | _ => collectPartsFields fields

/-- `collect` mapped over the elements of a JSON array. -/
def collectPartsList : List Json → List String
  | [] => []
  | x :: xs => collectParts x ++ collectPartsList xs

/-- `collect` mapped over the values of a JSON object. -/
def collectPartsFields : List (String × Json) → List String
  | [] => []
  | p :: ps => collectParts p.2 ++ collectPartsFields ps

end

/-- Embedding of `extract_transcript_text` (transcript.py:169-184). -/
def extract_transcript_text (data : Json) : String :=
  " ".intercalate (collectParts data)

/-- Outcome of the `requests.post` call inside `fetch_transcript`: a response
with status code and JSON body, or a raised exception (network/auth error). -/
inductive PostOutcome where
  | ok (status : Nat) (body : Json)
  | exn

/-- Truthiness of Python `text.strip()`: true exactly when the string has a
non-whitespace character. -/
def hasContent (s : String) : Bool :=
  s.toList.any fun c => ¬ c.isWhitespace

/-- Embedding of `fetch_transcript` (transcript.py:187-200): `none` without a
token; on an exception or an HTTP error status (`raise_for_status`) the
handler returns `none`; otherwise the extracted text is returned when it has
non-whitespace content (`text if text.strip() else None`) and `none`
(captions empty/absent) when it does not. -/
def fetch_transcript (apiToken : Option String) (resp : PostOutcome) : Option String :=
  match apiToken with
  | none => none
  | some _ =>
    match resp with
    | .exn => none
    | .ok status body =>
      if 400 ≤ status ∧ status < 600 then none
      else
        let text := extract_transcript_text body
        if hasContent text then some text else none

/- ──────────────────────────────────────────────────────────────────────
   Poll Loop Controller: one iteration of the `while not stop_event.is_set()`
   loop of `monitor_channel` (transcript.py:912-1094)
   ────────────────────────────────────────────────────────────────────── -/

/-- Mutable loop state of `monitor_channel`: `last_count` (transcript.py:886)
and `last_vid_id` (transcript.py:891). -/
structure MonState where
  lastCount : Option Int
  lastVidId : Option String
deriving Repr, DecidableEq

/-- Outcome of one poll iteration: `waiting` for every `continue` path, `done`
for the auto-stop path after a successful transcript (transcript.py:1065-1080). -/
inductive PollOutcome where
  | waiting
  | done
deriving Repr, DecidableEq

/-- Collaborator responses consumed during one poll iteration: the result of
`get_video_count` (transcript.py:925), of `get_latest_video` (969), and of
`fetch_transcript` (1013); each later call only happens when the iteration
reaches it. -/
structure PollInputs where
  newCount : Option Int
  latest : Option (String × String)
  transcript : Option String
deriving Repr, DecidableEq

/-- Observable result of one poll iteration: the state at the end of the
iteration, the video id passed to `fetch_transcript` (if the iteration reached
that call), the successive values assigned to `last_count` during the
iteration (lines 957 and 1027), and whether the loop continues. -/
structure PollResult where
  state : MonState
  fetchedFor : Option String
  countWrites : List Int
  outcome : PollOutcome
deriving Repr, DecidableEq

/-- `diff = (new_count - last_count) if last_count else 1`
(transcript.py:955); Python truthiness makes both `None` and `0` fall to `1`. -/
def diffOf (lastCount : Option Int) (newCount : Int) : Int :=
  match lastCount with
  | some c => if c = 0 then 1 else newCount - c
  | none => 1

/-- Detected branch of the poll iteration (transcript.py:953-1080), entered
when the count increased (or no baseline count was recorded).  Models, in
order: the baseline update `last_count = new_count` (957); the
`get_latest_video` result (969-979, `continue` on `None`); duplicate-signal
suppression (984-994, `continue` when the id equals `last_vid_id`); the
baseline id update (996); the transcript check `if not transcript`
(1017-1028), which resets `last_vid_id = None` and `last_count = new_count -
diff` and continues; and the auto-stop after a fetched transcript (1065-1080). -/
def pollDetected (st : MonState) (n : Int) (inp : PollInputs) : PollResult :=
  let diff := diffOf st.lastCount n
  match inp.latest with
  | none => ⟨⟨some n, st.lastVidId⟩, none, [n], .waiting⟩
  | some vt =>
    if st.lastVidId = some vt.1 then ⟨⟨some n, st.lastVidId⟩, none, [n], .waiting⟩
    else
      match inp.transcript with
      | none => ⟨⟨some (n - diff), none⟩, some vt.1, [n, n - diff], .waiting⟩
      | some t =>
        if t = "" then ⟨⟨some (n - diff), none⟩, some vt.1, [n, n - diff], .waiting⟩
        else ⟨⟨some n, some vt.1⟩, some vt.1, [n], .done⟩

/-- One iteration of the poll loop body (transcript.py:921-1080): a failed
count fetch continues with everything unchanged (927-934); an unchanged or
decreased count with a recorded baseline continues (949-951); otherwise the
detected branch runs. -/
def pollStep (st : MonState) (inp : PollInputs) : PollResult :=
  match inp.newCount with
  | none => ⟨st, none, [], .waiting⟩
  | some n =>
    match st.lastCount with
    | none => pollDetected st n inp
    | some c =>
      if n ≤ c then ⟨st, none, [], .waiting⟩
      else pollDetected st n inp

/-- State reached by running the poll loop body over a sequence of per-poll
collaborator responses. -/
def pollRun (st : MonState) (inps : List PollInputs) : MonState :=
  inps.foldl (fun s i => (pollStep s i).state) st

/-- Chain check for the values assigned to `last_count` during an iteration:
`true` when no write is smaller than the previous non-null value. -/
def countWritesNondec : Option Int → List Int → Bool
  | _, [] => true
  | none, w :: ws => countWritesNondec (some w) ws
  | some c, w :: ws => (c ≤ w) && countWritesNondec (some w) ws

/- ──────────────────────────────────────────────────────────────────────
   Specification-side description of the duration regex shape, used to state
   the totality claim about `parse_iso8601_duration`
   ────────────────────────────────────────────────────────────────────── -/

/-- Rendering of one optional `(\d+)X` regex component. -/
def renderComp (letter : Char) : Option (List Char) → List Char
  | none => []
  | some ds => ds ++ [letter]

/-- Numeric value of one optional component, `0` when absent (`int(x or 0)`). -/
def compVal : Option (List Char) → Nat
  | none => 0
  | some ds => digitsToNat ds

/- ──────────────────────────────────────────────────────────────────────
   Concrete scenario constants used by counterexamples and witnesses
   ────────────────────────────────────────────────────────────────────── -/

/-- Rotator with two fresh keys, round-robin index at the first. -/
def quotaRot : RotState := ⟨["k1", "k2"], 0, []⟩

/-- HTTP oracle where the first key is over quota (403) and the second works. -/
def quotaHttp : String → HttpOutcome := fun k => if k = "k1" then .resp 403 else .resp 200

/-- Captioning response whose payload holds no caption text at all. -/
def emptyCaptionBody : Json := Json.obj [("abc123", Json.obj [("tracks", Json.arr [])])]

/- ──────────────────────────────────────────────────────────────────────
   Helper lemmas about the duration parser
   ────────────────────────────────────────────────────────────────────── -/

/-- Splitting `takeWhile`/`dropWhile` around a digit run followed by a
non-digit boundary. -/
lemma takeWhile_digits (ds rest : List Char)
    (hds : ∀ c ∈ ds, c.isDigit = true)
    (hrest : ∀ c, rest.head? = some c → c.isDigit = false) :
    (ds ++ rest).takeWhile Char.isDigit = ds ∧
      (ds ++ rest).dropWhile Char.isDigit = rest := by
  induction ds with
  | nil =>
    simp only [List.nil_append]
    cases rest with
    | nil => simp
    | cons r rs =>
      have hr := hrest r rfl
      simp [List.takeWhile_cons, List.dropWhile_cons, hr]
  | cons d ds ih =>
    have hd : d.isDigit = true := hds d (by simp)
    have ih' := ih (fun c hc => hds c (by simp [hc]))
    simp [List.takeWhile_cons, List.dropWhile_cons, hd, ih'.1, ih'.2]

/-- A component matches exactly a leading digit run followed by its letter. -/
lemma matchComp_hit (letter : Char) (ds rest : List Char)
    (hne : ds ≠ []) (hds : ∀ c ∈ ds, c.isDigit = true)
    (hletter : letter.isDigit = false) :
    matchComp letter (ds ++ letter :: rest) = (digitsToNat ds, rest) := by
  have h := takeWhile_digits ds (letter :: rest) hds
    (fun c hc => by simp at hc; rw [← hc]; exact hletter)
  simp [matchComp, h.1, h.2, hne]

/-- A component does not fire when the stream starts with a non-digit. -/
lemma matchComp_miss_head (letter : Char) (cs : List Char)
    (h : ∀ c, cs.head? = some c → c.isDigit = false) :
    matchComp letter cs = (0, cs) := by
  have h2 := takeWhile_digits [] cs (by simp) h
  simp only [List.nil_append] at h2
  cases cs with
  | nil => simp [matchComp]
  | cons r rs => simp [matchComp, h2.1, h2.2]

/-- A component does not fire when the digit run is followed by a different
letter (the later component's letter, or any other non-digit). -/
lemma matchComp_miss_letter (letter other : Char) (ds rest : List Char)
    (hds : ∀ c ∈ ds, c.isDigit = true)
    (hother : other.isDigit = false) (hne : other ≠ letter) :
    matchComp letter (ds ++ other :: rest) = (0, ds ++ other :: rest) := by
  have h := takeWhile_digits ds (other :: rest) hds
    (fun c hc => by simp at hc; rw [← hc]; exact hother)
  simp [matchComp, h.1, h.2, hne]

/-- Unfolding of the parser on a string that starts with `PT`. -/
lemma parse_PT (L : List Char) :
    parse_iso8601_duration (String.mk ('P' :: 'T' :: L)) =
      (matchComp 'H' L).1 * 3600 + (matchComp 'M' (matchComp 'H' L).2).1 * 60 +
        (matchComp 'S' (matchComp 'M' (matchComp 'H' L).2).2).1 := rfl

/-- Closed form of `parse_iso8601_duration` on any string whose suffix after
`PT` is an arbitrary combination of optional `H`/`M`/`S` components followed
by a non-digit remainder. -/
lemma parse_components (hO mO sO : Option (List Char)) (rest : List Char)
    (hh : ∀ ds, hO = some ds → ds ≠ [] ∧ ∀ c ∈ ds, c.isDigit = true)
    (hm : ∀ ds, mO = some ds → ds ≠ [] ∧ ∀ c ∈ ds, c.isDigit = true)
    (hs : ∀ ds, sO = some ds → ds ≠ [] ∧ ∀ c ∈ ds, c.isDigit = true)
    (hrest : ∀ c, rest.head? = some c → c.isDigit = false) :
    parse_iso8601_duration
        (String.mk ('P' :: 'T' ::
          (renderComp 'H' hO ++ (renderComp 'M' mO ++ (renderComp 'S' sO ++ rest))))) =
      compVal hO * 3600 + compVal mO * 60 + compVal sO := by
  have hsS : matchComp 'S' (renderComp 'S' sO ++ rest) =
      (compVal sO, (matchComp 'S' (renderComp 'S' sO ++ rest)).2) := by
    cases sO with
    | none =>
      simp only [renderComp, List.nil_append, compVal]
      rw [matchComp_miss_head 'S' rest hrest]
    | some ds =>
      obtain ⟨hne, hds⟩ := hs ds rfl
      simp only [renderComp, compVal, List.append_assoc, List.singleton_append]
      rw [matchComp_hit 'S' ds rest hne hds (by decide)]
  have hmM : matchComp 'M' (renderComp 'M' mO ++ (renderComp 'S' sO ++ rest)) =
      (compVal mO, renderComp 'S' sO ++ rest) := by
    cases mO with
    | none =>
      simp only [renderComp, List.nil_append, compVal]
      cases sO with
      | none =>
        simp only [renderComp, List.nil_append]
        exact matchComp_miss_head 'M' rest hrest
      | some ds =>
        obtain ⟨hne, hds⟩ := hs ds rfl
        simp only [renderComp, List.append_assoc, List.singleton_append]
        exact matchComp_miss_letter 'M' 'S' ds rest hds (by decide) (by decide)
    | some ds =>
      obtain ⟨hne, hds⟩ := hm ds rfl
      simp only [renderComp, compVal, List.append_assoc, List.singleton_append]
      exact matchComp_hit 'M' ds _ hne hds (by decide)
  have hhH : matchComp 'H'
        (renderComp 'H' hO ++ (renderComp 'M' mO ++ (renderComp 'S' sO ++ rest))) =
      (compVal hO, renderComp 'M' mO ++ (renderComp 'S' sO ++ rest)) := by
    cases hO with
    | none =>
      simp only [renderComp, List.nil_append, compVal]
      cases mO with
      | some ds =>
        obtain ⟨hne, hds⟩ := hm ds rfl
        simp only [renderComp, List.append_assoc, List.singleton_append]
        exact matchComp_miss_letter 'H' 'M' ds _ hds (by decide) (by decide)
      | none =>
        simp only [renderComp, List.nil_append]
        cases sO with
        | some ds =>
          obtain ⟨hne, hds⟩ := hs ds rfl
          simp only [renderComp, List.append_assoc, List.singleton_append]
          exact matchComp_miss_letter 'H' 'S' ds _ hds (by decide) (by decide)
        | none =>
          simp only [renderComp, List.nil_append]
          exact matchComp_miss_head 'H' rest hrest
    | some ds =>
      obtain ⟨hne, hds⟩ := hh ds rfl
      simp only [renderComp, compVal, List.append_assoc, List.singleton_append]
      exact matchComp_hit 'H' ds _ hne hds (by decide)
  rw [parse_PT]
  simp only [hhH, hmM]
  rw [hsS]

/- ──────────────────────────────────────────────────────────────────────
   Claim theorems
   ────────────────────────────────────────────────────────────────────── -/

/-- C1 (counterexample): the claim that no step of the poll loop ever assigns
the count baseline a value smaller than its previous non-null value fails on
the code.  With baseline count 5 and baseline video `v0`, a poll that sees
count 6 and a new video `v1` whose transcript is not yet available first
assigns `last_count = 6` (transcript.py:957) and then assigns `last_count =
new_count - diff = 5` (transcript.py:1027), a strictly smaller value. -/
theorem C1_counterexample :
    countWritesNondec (some 5)
        (pollStep ⟨some 5, some "v0"⟩ ⟨some 6, some ("v1", "T"), none⟩).countWrites
      = false ∧
    (pollStep ⟨some 5, some "v0"⟩ ⟨some 6, some ("v1", "T"), none⟩).countWrites = [6, 5] := by
  decide

/-- C1 (amended): at whole-iteration granularity the recorded upload count is
monotone — an iteration of the poll loop never ends with a non-null
`last_count` smaller than the non-null value it started with (the transient
decrease happens only inside the transcript-not-ready iteration, which
restores the pre-detection value). -/
theorem C1_step_monotone (st : MonState) (inp : PollInputs) (c c' : Int)
    (hc : st.lastCount = some c)
    (hc' : (pollStep st inp).state.lastCount = some c') :
    c ≤ c' := by
  obtain ⟨lc, lv⟩ := st
  obtain ⟨nc, lat, tr⟩ := inp
  simp only at hc
  subst hc
  cases nc with
  | none =>
    simp [pollStep] at hc'
    omega
  | some n =>
    by_cases hle : n ≤ c
    · simp [pollStep, hle] at hc'
      omega
    · cases lat with
      | none =>
        simp [pollStep, hle, pollDetected] at hc'
        omega
      | some vt =>
        by_cases hdup : lv = some vt.1
        · simp [pollStep, hle, pollDetected, hdup] at hc'
          omega
        · cases tr with
          | none =>
            simp [pollStep, hle, pollDetected, hdup, diffOf] at hc'
            by_cases hc0 : c = 0 <;> simp [hc0] at hc' <;> omega
          | some t =>
            by_cases ht : t = ""
            · simp [pollStep, hle, pollDetected, hdup, ht, diffOf] at hc'
              by_cases hc0 : c = 0 <;> simp [hc0] at hc' <;> omega
            · simp [pollStep, hle, pollDetected, hdup, ht] at hc'
              omega

/-- C1 (witness): the amended monotonicity theorem applied to the concrete
not-ready iteration, whose ending count equals the starting count 5. -/
theorem C1_step_monotone_witness : (5 : Int) ≤ 5 :=
  C1_step_monotone ⟨some 5, some "v0"⟩ ⟨some 6, some ("v1", "T"), none⟩ 5 5 rfl (by decide)

/-- C2 (counterexample): with baseline count 5 and video `v0`, a poll that
detects count 6, resolves new video `v1` and finds its transcript not yet
available does not end the session (outcome is `waiting`, not `done`), and the
very next poll cycle attempts a transcript fetch for the same video `v1`
again — refuting the claim that the controller transitions to Done and never
re-attempts the fetch within the session. -/
theorem C2_counterexample :
    (pollStep ⟨some 5, some "v0"⟩ ⟨some 6, some ("v1", "T"), none⟩).fetchedFor = some "v1" ∧
    (pollStep ⟨some 5, some "v0"⟩ ⟨some 6, some ("v1", "T"), none⟩).outcome ≠ PollOutcome.done ∧
    (pollStep (pollStep ⟨some 5, some "v0"⟩ ⟨some 6, some ("v1", "T"), none⟩).state
        ⟨some 6, some ("v1", "T"), some "words"⟩).fetchedFor = some "v1" := by
  decide

/-- C2 (amended): when the Transcript Waiter reports the transcript of the
confirmed new video as not available, the Poll Loop Controller does NOT end
the watch session: it returns to Waiting, resets the baseline video id to
null and the recorded count back by the detected increment, so that any later
poll that again sees a count above the restored baseline re-resolves the same
video and attempts its transcript fetch again. -/
theorem C2_retry_on_not_ready (st : MonState) (inp : PollInputs) (c n : Int)
    (vid title : String)
    (hc : st.lastCount = some c) (hn : inp.newCount = some n) (hlt : c < n)
    (hlat : inp.latest = some (vid, title)) (hdup : st.lastVidId ≠ some vid)
    (htr : inp.transcript = none) :
    (pollStep st inp).outcome = PollOutcome.waiting ∧
    (pollStep st inp).fetchedFor = some vid ∧
    (pollStep st inp).state.lastVidId = none ∧
    (pollStep st inp).state.lastCount = some (n - diffOf (some c) n) ∧
    (∀ (inp' : PollInputs) (n' : Int) (title' : String),
      inp'.newCount = some n' → n - diffOf (some c) n < n' →
      inp'.latest = some (vid, title') →
      (pollStep (pollStep st inp).state inp').fetchedFor = some vid) := by
  obtain ⟨lc, lv⟩ := st
  obtain ⟨nc, lat, tr⟩ := inp
  simp only at hc hn hlat htr
  subst hc; subst hn; subst hlat; subst htr
  have hle : ¬ n ≤ c := not_le.mpr hlt
  simp only at hdup
  refine ⟨?_, ?_, ?_, ?_, ?_⟩
  · simp [pollStep, hle, pollDetected, hdup]
  · simp [pollStep, hle, pollDetected, hdup]
  · simp [pollStep, hle, pollDetected, hdup]
  · simp [pollStep, hle, pollDetected, hdup]
  · intro inp' n' title' hn' hlt' hlat'
    obtain ⟨nc', lat', tr'⟩ := inp'
    simp only at hn' hlat'
    subst hn'; subst hlat'
    have hst : (pollStep ⟨some c, lv⟩ ⟨some n, some (vid, title), none⟩).state =
        ⟨some (n - diffOf (some c) n), none⟩ := by
      simp [pollStep, hle, pollDetected, hdup]
    rw [hst]
    have hle' : ¬ n' ≤ n - diffOf (some c) n := not_le.mpr hlt'
    cases tr' with
    | none => simp [pollStep, hle', pollDetected]
    | some t =>
      by_cases ht : t = "" <;> simp [pollStep, hle', pollDetected, ht]

/-- C2 (witness): the amended retry theorem applied to the concrete scenario
of the counterexample. -/
theorem C2_retry_on_not_ready_witness :
    (pollStep ⟨some 5, some "v0"⟩ ⟨some 6, some ("v1", "T"), none⟩).outcome =
      PollOutcome.waiting ∧
    (pollStep ⟨some 5, some "v0"⟩ ⟨some 6, some ("v1", "T"), none⟩).fetchedFor = some "v1" ∧
    (pollStep ⟨some 5, some "v0"⟩ ⟨some 6, some ("v1", "T"), none⟩).state.lastVidId = none ∧
    (pollStep ⟨some 5, some "v0"⟩ ⟨some 6, some ("v1", "T"), none⟩).state.lastCount =
      some (6 - diffOf (some 5) 6) ∧
    (∀ (inp' : PollInputs) (n' : Int) (title' : String),
      inp'.newCount = some n' → 6 - diffOf (some 5) 6 < n' →
      inp'.latest = some ("v1", title') →
      (pollStep (pollStep ⟨some 5, some "v0"⟩ ⟨some 6, some ("v1", "T"), none⟩).state
          inp').fetchedFor = some "v1") :=
  C2_retry_on_not_ready ⟨some 5, some "v0"⟩ ⟨some 6, some ("v1", "T"), none⟩ 5 6 "v1" "T"
    rfl rfl (by decide) rfl (by decide) rfl

/-- C3 (code bug): with two fresh keys, where the first returns HTTP 403
(quota exceeded) and the second would return HTTP 200, `_yt_get` returns no
response at all and leaves the exhausted set empty: the quota-hit log line
(transcript.py:255) evaluates `self._keys` — an unbound name in this
module-level function — so a `NameError` is raised before
`YT_KEYS.mark_exhausted(key)` (line 256) and is caught by the generic
`except Exception` handler (lines 269-271), which returns `None`.  This
contradicts both the claim and the function's own docstring
(transcript.py:233-237): the failing key is never marked exhausted and the
request is never retried with the remaining working credential. -/
theorem C3_quota_rotation_bug :
    yt_get quotaRot quotaHttp = (none, ⟨["k1", "k2"], 1, []⟩) ∧
    quotaHttp "k2" = HttpOutcome.resp 200 ∧
    quotaRot.available = true ∧
    (quotaRot.mark_exhausted "k1").exhausted = [0] ∧
    (yt_get quotaRot quotaHttp).2.exhausted = [] := by
  decide

/-- C4 (counterexample): a successful captioning response whose payload holds
no caption text and a failed request (network/auth exception) produce the
identical result `none` from `fetch_transcript`, so the caller cannot tell
the NotYetAvailable outcome apart from the Failed outcome. -/
theorem C4_counterexample :
    fetch_transcript (some "token") (PostOutcome.ok 200 emptyCaptionBody) = none ∧
    fetch_transcript (some "token") PostOutcome.exn = none ∧
    fetch_transcript (some "token") (PostOutcome.ok 200 emptyCaptionBody) =
      fetch_transcript (some "token") PostOutcome.exn := by
  have hempty : hasContent (extract_transcript_text emptyCaptionBody) = false := by
    simp only [extract_transcript_text, emptyCaptionBody, collectParts, collectPartsFields,
      collectPartsList]
    decide
  refine ⟨by simp [fetch_transcript, hempty], rfl, by simp [fetch_transcript, hempty]⟩

/-- C4 (amended): `fetch_transcript` distinguishes only Ready from non-Ready:
a successful response with non-whitespace extracted captions yields
`some text`, while both an empty/absent-captions response and a failed
request collapse to the same value `none`, indistinguishable to the caller. -/
theorem C4_nonready_collapsed (tok : String) (body : Json)
    (hempty : hasContent (extract_transcript_text body) = false) :
    fetch_transcript (some tok) (PostOutcome.ok 200 body) = none ∧
    fetch_transcript (some tok) PostOutcome.exn = none ∧
    fetch_transcript (some tok) (PostOutcome.ok 200 body) =
      fetch_transcript (some tok) PostOutcome.exn ∧
    (∀ body' : Json, hasContent (extract_transcript_text body') = true →
      fetch_transcript (some tok) (PostOutcome.ok 200 body') =
        some (extract_transcript_text body')) := by
  refine ⟨?_, rfl, ?_, ?_⟩
  · simp [fetch_transcript, hempty]
  · simp [fetch_transcript, hempty]
  · intro body' hne
    simp [fetch_transcript, hne]

/-- C4 (witness): the amended collapse theorem applied to the concrete
empty-caption payload. -/
theorem C4_nonready_collapsed_witness :
    fetch_transcript (some "token") (PostOutcome.ok 200 emptyCaptionBody) = none ∧
    fetch_transcript (some "token") PostOutcome.exn = none ∧
    fetch_transcript (some "token") (PostOutcome.ok 200 emptyCaptionBody) =
      fetch_transcript (some "token") PostOutcome.exn ∧
    (∀ body' : Json, hasContent (extract_transcript_text body') = true →
      fetch_transcript (some "token") (PostOutcome.ok 200 body') =
        some (extract_transcript_text body')) :=
  C4_nonready_collapsed "token" emptyCaptionBody
    (by
      simp only [extract_transcript_text, emptyCaptionBody, collectParts, collectPartsFields,
        collectPartsList]
      decide)

/-- C5: concrete durations of at most 60 seconds classify as Short, concrete
durations above 60 classify as Long, and a candidate with unknown duration —
one missing from the batch duration table, the whole table absent because the
duration fetch failed, or a standalone `is_short` probe without data — is
never classified Short. -/
theorem C5_duration_classification :
    (∀ d : Nat, d ≤ 60 → classifiesShort d = true) ∧
    (∀ d : Nat, 60 < d → classifiesShort d = false) ∧
    (∀ (durs : List (String × Nat)) (v : String),
      (∀ p ∈ durs, p.1 ≠ v) → classifiesShort (dictGet durs v 999) = false) ∧
    (∀ v : String, classifiesShort (dictGet (durationsOf none) v 999) = false) ∧
    is_short true none = false ∧
    is_short true (some []) = false := by
  refine ⟨?_, ?_, ?_, ?_, rfl, rfl⟩
  · intro d h
    simp [classifiesShort, h]
  · intro d h
    simp [classifiesShort, h, not_le.mpr h]
  · intro durs v h
    have hnone : durs.reverse.find? (fun p => p.1 = v) = none := by
      rw [List.find?_eq_none]
      intro p hp
      simp [h p (List.mem_reverse.mp hp)]
    simp [dictGet, hnone, classifiesShort]
  · intro v
    simp [durationsOf, dictGet, classifiesShort]

/-- C5 (witness): the classification theorem applied at concrete durations 60
and 61 and at a lookup of a video absent from a concrete duration table. -/
theorem C5_duration_classification_witness :
    classifiesShort 60 = true ∧ classifiesShort 61 = false ∧
    classifiesShort (dictGet [("a", 100)] "b" 999) = false :=
  ⟨C5_duration_classification.1 60 (by decide),
   C5_duration_classification.2.1 61 (by decide),
   C5_duration_classification.2.2.1 [("a", 100)] "b" (by decide)⟩

/-- C6: the Latest-Video Resolver requests the 8 most recent uploads
(`maxResults` is `8` in the request parameters) and, over the returned
reverse-chronological candidate list, returns exactly the first candidate
(id, title) whose duration does not classify Short; when every fetched
candidate classifies Short it returns `none`. -/
theorem C6_latest_video_resolver :
    (∀ pid : String, ("maxResults", "8") ∈ playlistItemsParams pid) ∧
    (∀ (pl : List PlaylistItem) (vr : Option (List (String × String))),
      get_latest_video true (some pl) vr =
        firstNonShort (candidatesOf pl) (durationsOf vr)) ∧
    (∀ (pl : List PlaylistItem) (vr : Option (List (String × String))),
      ((candidatesOf pl).all fun c =>
        classifiesShort (dictGet (durationsOf vr) c.1 999)) = true →
      get_latest_video true (some pl) vr = none) := by
  have hmain : ∀ (pl : List PlaylistItem) (vr : Option (List (String × String))),
      get_latest_video true (some pl) vr =
        firstNonShort (candidatesOf pl) (durationsOf vr) := by
    intro pl vr
    by_cases hpl : pl = []
    · subst hpl
      simp [get_latest_video, firstNonShort, candidatesOf]
    · by_cases hc : candidatesOf pl = []
      · simp [get_latest_video, hpl, hc, firstNonShort]
      · simp [get_latest_video, hpl, hc]
  refine ⟨fun pid => by simp [playlistItemsParams], hmain, ?_⟩
  intro pl vr hall
  rw [hmain pl vr]
  rw [firstNonShort, List.find?_eq_none]
  intro c hc
  have := (List.all_eq_true.mp hall) c hc
  simp [this]

/-- C6 (witness): with one fetched candidate of duration 30s (a Short), the
resolver returns `none`. -/
theorem C6_latest_video_resolver_witness :
    get_latest_video true (some [⟨some "a", "T"⟩]) (some [("a", "PT30S")]) = none :=
  C6_latest_video_resolver.2.2 [⟨some "a", "T"⟩] (some [("a", "PT30S")]) (by decide)

/-- C7: on a detected count increase whose resolved latest video id equals the
recorded baseline id, the poll iteration performs no transcript fetch and
returns to Waiting (duplicate-signal suppression, transcript.py:984-994). -/
theorem C7_duplicate_suppression (st : MonState) (inp : PollInputs) (c n : Int)
    (vid title : String)
    (hc : st.lastCount = some c) (hn : inp.newCount = some n) (hlt : c < n)
    (hlat : inp.latest = some (vid, title)) (hdup : st.lastVidId = some vid) :
    (pollStep st inp).fetchedFor = none ∧
    (pollStep st inp).outcome = PollOutcome.waiting := by
  obtain ⟨lc, lv⟩ := st
  obtain ⟨nc, lat, tr⟩ := inp
  simp only at hc hn hlat hdup
  subst hc; subst hn; subst hlat; subst hdup
  have hle : ¬ n ≤ c := not_le.mpr hlt
  constructor <;> simp [pollStep, hle, pollDetected]

/-- C7 (witness): duplicate suppression at a concrete poll where the count
rose from 5 to 6 but the resolver returned the baseline video `v0`. -/
theorem C7_duplicate_suppression_witness :
    (pollStep ⟨some 5, some "v0"⟩ ⟨some 6, some ("v0", "T"), none⟩).fetchedFor = none ∧
    (pollStep ⟨some 5, some "v0"⟩ ⟨some 6, some ("v0", "T"), none⟩).outcome =
      PollOutcome.waiting :=
  C7_duplicate_suppression ⟨some 5, some "v0"⟩ ⟨some 6, some ("v0", "T"), none⟩ 5 6 "v0" "T"
    rfl rfl (by decide) rfl rfl

/-- C8: after a detected count increase whose resolver call returns `None`,
the iteration ends with the recorded upload count updated to the newly
fetched value while the baseline video identifier is unchanged, no transcript
fetch happens, and the loop returns to Waiting (transcript.py:953-979). -/
theorem C8_count_updated_on_none (st : MonState) (inp : PollInputs) (n : Int)
    (hn : inp.newCount = some n)
    (hinc : ∀ c, st.lastCount = some c → c < n)
    (hlat : inp.latest = none) :
    (pollStep st inp).state.lastCount = some n ∧
    (pollStep st inp).state.lastVidId = st.lastVidId ∧
    (pollStep st inp).fetchedFor = none ∧
    (pollStep st inp).outcome = PollOutcome.waiting := by
  obtain ⟨lc, lv⟩ := st
  obtain ⟨nc, lat, tr⟩ := inp
  simp only at hn hlat
  subst hn; subst hlat
  cases lc with
  | none => refine ⟨?_, ?_, ?_, ?_⟩ <;> simp [pollStep, pollDetected]
  | some c =>
    have hle : ¬ n ≤ c := not_le.mpr (hinc c rfl)
    refine ⟨?_, ?_, ?_, ?_⟩ <;> simp [pollStep, hle, pollDetected]

/-- C8 (witness): the frame-effect theorem at a concrete poll where the count
rose from 5 to 6 and the resolver returned `None`. -/
theorem C8_count_updated_on_none_witness :
    (pollStep ⟨some 5, some "v0"⟩ ⟨some 6, none, none⟩).state.lastCount = some 6 ∧
    (pollStep ⟨some 5, some "v0"⟩ ⟨some 6, none, none⟩).state.lastVidId =
      MonState.lastVidId ⟨some 5, some "v0"⟩ ∧
    (pollStep ⟨some 5, some "v0"⟩ ⟨some 6, none, none⟩).fetchedFor = none ∧
    (pollStep ⟨some 5, some "v0"⟩ ⟨some 6, none, none⟩).outcome = PollOutcome.waiting :=
  C8_count_updated_on_none ⟨some 5, some "v0"⟩ ⟨some 6, none, none⟩ 6 rfl
    (by intro c hc; injection hc with h; omega) rfl

/-- C9: a failed upload-count fetch (`get_video_count` yields `none`, which it
does whenever keys are unavailable or the metadata call fails) makes the poll
iteration a no-op: the state — both the recorded count and the baseline video
id — is untouched, nothing is fetched, and the loop stays in Waiting; by
induction this holds over any number of consecutive failed polls. -/
theorem C9_fetch_failure_preserves_state :
    (∀ r : Option (List Int), get_video_count false r = none) ∧
    get_video_count true none = none ∧
    (∀ (st : MonState) (inp : PollInputs), inp.newCount = none →
      pollStep st inp = ⟨st, none, [], PollOutcome.waiting⟩) ∧
    (∀ (st : MonState) (inps : List PollInputs), (∀ i ∈ inps, i.newCount = none) →
      pollRun st inps = st) := by
  have hstep : ∀ (st : MonState) (inp : PollInputs), inp.newCount = none →
      pollStep st inp = ⟨st, none, [], PollOutcome.waiting⟩ := by
    intro st inp h
    obtain ⟨nc, lat, tr⟩ := inp
    simp only at h
    subst h
    rfl
  refine ⟨fun r => rfl, rfl, hstep, ?_⟩
  intro st inps
  induction inps generalizing st with
  | nil => intro _; rfl
  | cons i is ih =>
    intro h
    have hi := hstep st i (h i (by simp))
    simp only [pollRun, List.foldl_cons]
    rw [hi]
    exact ih st (fun j hj => h j (by simp [hj]))

/-- C9 (witness): three consecutive failed fetches leave a concrete state
unchanged. -/
theorem C9_fetch_failure_preserves_state_witness :
    pollRun ⟨some 120, some "v0"⟩
        [⟨none, none, none⟩, ⟨none, none, none⟩, ⟨none, none, none⟩] =
      ⟨some 120, some "v0"⟩ :=
  C9_fetch_failure_preserves_state.2.2.2 ⟨some 120, some "v0"⟩
    [⟨none, none, none⟩, ⟨none, none, none⟩, ⟨none, none, none⟩] (by decide)

/-- C10: `parse_iso8601_duration` is total: for every string whose prefix
matches `PT(\d+H)?(\d+M)?(\d+S)?` (each component optional, rendered here as
`renderComp` pieces followed by a remainder that does not begin with a digit)
it returns `h*3600 + m*60 + s`, and for every string whose prefix does not
match the pattern — equivalently, any string not starting with `PT`, such as
the day-component duration `"P1DT2H"` — it returns `0`, a value that the
duration check of `get_latest_video` then classifies as a Short. -/
theorem C10_parse_total :
    (∀ (hO mO sO : Option (List Char)) (rest : List Char),
      (∀ ds, hO = some ds → ds ≠ [] ∧ ∀ c ∈ ds, c.isDigit = true) →
      (∀ ds, mO = some ds → ds ≠ [] ∧ ∀ c ∈ ds, c.isDigit = true) →
      (∀ ds, sO = some ds → ds ≠ [] ∧ ∀ c ∈ ds, c.isDigit = true) →
      (∀ c, rest.head? = some c → c.isDigit = false) →
      parse_iso8601_duration
          (String.mk ('P' :: 'T' ::
            (renderComp 'H' hO ++ (renderComp 'M' mO ++ (renderComp 'S' sO ++ rest))))) =
        compVal hO * 3600 + compVal mO * 60 + compVal sO) ∧
    (∀ s : String, s.toList.take 2 ≠ ['P', 'T'] → parse_iso8601_duration s = 0) ∧
    parse_iso8601_duration "P1DT2H" = 0 ∧
    classifiesShort (parse_iso8601_duration "P1DT2H") = true := by
  refine ⟨parse_components, ?_, by decide, by decide⟩
  intro s hs
  unfold parse_iso8601_duration
  split
  next cs heq =>
    exfalso
    apply hs
    rw [heq]
    rfl
  next => rfl

/-- C10 (witness): the totality theorem applied to the concrete rendered
string `PT1H30S`, whose value is 3630 seconds. -/
theorem C10_parse_total_witness :
    parse_iso8601_duration
        (String.mk ('P' :: 'T' ::
          (renderComp 'H' (some ['1']) ++
            (renderComp 'M' none ++ (renderComp 'S' (some ['3', '0']) ++ []))))) =
      compVal (some ['1']) * 3600 + compVal none * 60 + compVal (some ['3', '0']) :=
  C10_parse_total.1 (some ['1']) none (some ['3', '0']) []
    (fun ds h => by cases h; exact ⟨by decide, by decide⟩)
    (fun ds h => absurd h (by simp))
    (fun ds h => by cases h; exact ⟨by decide, by decide⟩)
    (fun c hc => absurd hc (by simp))

end BeastVideo
